import Mathlib

/-! snmp-fetch: the model value types, `Host::snapshot` and the `to_string` renderings

A shallow embedding of `src/snmp_fetch/snmp/api/types.cpp`.

* `std::string` is `String`, `std::list<T>` is `List T`, `std::optional<T>` is `Option T`.
* `str(boost::format("..%1%..%2%..") % a % b)` is the concatenation of the literal pieces of
  the format string with the arguments in their places.
* Operations that are undefined on some inputs in C++ (`front()` and `next(begin())` of an empty
  list) return `Option`; a function that uses them returns `Option` as well, `none` standing
  for "undefined behaviour reached".
-/

namespace SnmpFetch

/-! ## Declarations of `types.hpp` and `utils.hpp` -/

/-- Modelled from the spec: the enumerator `V2C` of the version enum is declared in `types.hpp`,
which is not part of the sources at hand. The enum is "closed, currently only `V2C`"; the tag is
kept as an integer so that unrecognised values can be expressed, and `V2C` gets the number C++
gives to a first enumerator. -/
def V2C : Int := 0

/-- Modelled from the spec: the nine members of the error-kind enum (declared in `types.hpp`,
not at hand), in the order of the spec and of the `switch`, numbered as C++ numbers
enumerators without initialisers. -/
def SESSION_ERROR : Int := 0
/-- Modelled from the spec: second member of the error-kind enum of `types.hpp`. -/
def CREATE_REQUEST_PDU_ERROR : Int := 1
/-- Modelled from the spec: third member of the error-kind enum of `types.hpp`. -/
def SEND_ERROR : Int := 2
/-- Modelled from the spec: fourth member of the error-kind enum of `types.hpp`. -/
def BAD_RESPONSE_PDU_ERROR : Int := 3
/-- Modelled from the spec: fifth member of the error-kind enum of `types.hpp`. -/
def TIMEOUT_ERROR : Int := 4
/-- Modelled from the spec: sixth member of the error-kind enum of `types.hpp`. -/
def ASYNC_PROBE_ERROR : Int := 5
/-- Modelled from the spec: seventh member of the error-kind enum of `types.hpp`. -/
def TRANSPORT_DISCONNECT_ERROR : Int := 6
/-- Modelled from the spec: eighth member of the error-kind enum of `types.hpp`. -/
def CREATE_RESPONSE_PDU_ERROR : Int := 7
/-- Modelled from the spec: ninth member of the error-kind enum of `types.hpp`. -/
def VALUE_WARNING : Int := 8

/-- Modelled from the spec: `Community` is declared in `types.hpp` (not at hand): a version tag
and the credential text. -/
structure Community where
  version : Int
  string : String
deriving DecidableEq

/-- Modelled from the spec: `ObjectIdentityParameter` is declared in `types.hpp` (not at hand):
two optional OIDs, an OID being a sequence of non-negative integers. The C++ field `end` is
`end_` here, `end` being a keyword. -/
structure ObjectIdentityParameter where
  start : Option (List Nat)
  end_ : Option (List Nat)
deriving DecidableEq

/-- Modelled from the spec: `Config` is declared in `types.hpp` (not at hand): four
non-negative integers. -/
structure Config where
  retries : Nat
  timeout : Nat
  var_binds_per_pdu : Nat
  bulk_repetitions : Nat
deriving DecidableEq

/-- Modelled from the spec: `NullVarBind` is declared in `types.hpp` (not at hand): an OID and
two non-negative sizes. -/
structure NullVarBind where
  oid : List Nat
  oid_size : Nat
  value_size : Nat
deriving DecidableEq

/-- Modelled from the spec: `Host` is declared in `types.hpp` (not at hand): an integer id, the
host name, the prioritised community list, the optional parameter list, the optional config. -/
structure Host where
  id : Int
  hostname : String
  communities : List Community
  parameters : Option (List ObjectIdentityParameter)
  config : Option Config
deriving DecidableEq

/-- Modelled from the spec: `SnmpError` is declared in `types.hpp` (not at hand): the kind tag,
the host by value, and six optional payload fields. -/
structure SnmpError where
  type : Int
  host : Host
  sys_errno : Option Int
  snmp_errno : Option Int
  err_stat : Option Int
  err_index : Option Int
  err_oid : Option (List Nat)
  message : Option String
deriving DecidableEq

/-- Decimal rendering of a signed integer, as `operator<<` and `std::to_string` give it. -/
def int_to_string : Int → String
  | Int.ofNat n => Nat.repr n
  | Int.negSucc n => "-" ++ Nat.repr (n + 1)

/-- Modelled from the spec: `oid_to_string` lives in `utils.hpp`/`utils.cpp`, not at hand. Spec
4.1: the sub-identifiers in decimal, joined with dots; the empty sequence gives the empty
string. -/
def oid_to_string (oid : List Nat) : String :=
  String.intercalate "." (oid.map Nat.repr)

/-! ## Primitives of the standard library used by `types.cpp` -/

/-- The call `std::list::front()`: the first element; undefined (`none`) on an empty list. -/
def front {α : Type} : List α → Option α
  | [] => none
  | a :: _ => some a

/-- The range `[next(l.begin()), l.end())`: the elements after the first; undefined (`none`) on
an empty list, where `begin()` is already `end()`. -/
def next_begin {α : Type} : List α → Option (List α)
  | [] => none
  | _ :: rest => some rest

/-- The call `std::accumulate(first, last, init, op)` over the elements of a range. -/
def accumulate {α β : Type} (range : List α) (init : β) (op : β → α → β) : β :=
  range.foldl op init

/-! ## `types.cpp`

The pieces of a format string are adjacent literals in the source, which the compiler joins
into one literal; they are written joined here. -/

/-- Lines 51, 52 and 193: `has_value() ? "'" + oid_to_string(*x) + "'" : "None"`. -/
def render_opt_oid : Option (List Nat) → String
  | some oid => "'" ++ oid_to_string oid ++ "'"
  | none => "None"

/-- Lines 189-192: `has_value() ? std::to_string(*x) : "None"`. -/
def render_opt_int : Option Int → String
  | some i => int_to_string i
  | none => "None"

/-- Line 194: `has_value() ? "'" + *x + "'" : "None"`. -/
def render_opt_text : Option String → String
  | some m => "'" ++ m ++ "'"
  | none => "None"

/-- Lines 14-26. -/
def NullVarBind.to_string (self : NullVarBind) : String :=
  "NullVarBind(oid='" ++ oid_to_string self.oid
    ++ "', oid_size=" ++ Nat.repr self.oid_size
    ++ ", value_size=" ++ Nat.repr self.value_size
    ++ ")"

/-- Lines 28-42. -/
def Config.to_string (self : Config) : String :=
  "Config(retries=" ++ Nat.repr self.retries
    ++ ", timeout=" ++ Nat.repr self.timeout
    ++ ", var_binds_per_pdu=" ++ Nat.repr self.var_binds_per_pdu
    ++ ", bulk_repetitions=" ++ Nat.repr self.bulk_repetitions
    ++ ")"

/-- Lines 44-54. -/
def ObjectIdentityParameter.to_string (self : ObjectIdentityParameter) : String :=
  "ObjectIdentityParameter(start=" ++ render_opt_oid self.start
    ++ ", end=" ++ render_opt_oid self.end_
    ++ ")"

/-- Lines 57-62: the local `version_string` after the `switch`. -/
def Community.version_string (version : Int) : String :=
  if version = V2C then "v2c" else "UNKNOWN_VERSION"

/-- Lines 56-73. -/
def Community.to_string (self : Community) : String :=
  "Community(version=" ++ Community.version_string self.version
    ++ ", string='" ++ self.string
    ++ "')"

/-- Lines 75-87, `Host Host::snapshot()`. -/
def Host.snapshot (self : Host) : Option Host := do
  let communities ←
    if !self.communities.isEmpty then
      (do let c ← front self.communities; pure [c])
    else
      pure []
  let parameters ←
    match self.parameters with
    | some ps =>
      if !ps.isEmpty then
        (do let p ← front ps; pure (some [p]))
      else
        pure none
    | none => pure none
  pure {
    id := self.id
    hostname := self.hostname
    communities := communities
    parameters := parameters
    config := self.config }

/-- The lambda of lines 124 and 134. -/
def join_op (lhs rhs : String) : String := lhs ++ ", " ++ rhs

/-- Lines 120-127 and 130-137: `l.has_value() ? "[" + accumulate(..) + "]" : dflt`. -/
def Host.render_list (l : Option (List String)) (dflt : String) : Option String :=
  match l with
  | some l => do
    let first ← front l
    let rest ← next_begin l
    pure ("[" ++ accumulate rest first join_op ++ "]")
  | none => pure dflt

/-- Lines 91-141. -/
def Host.to_string (self : Host) : Option String := do
  let communities : Option (List String) :=
    if !self.communities.isEmpty then
      some (self.communities.map Community.to_string)
    else
      none
  let parameters : Option (List String) :=
    match self.parameters with
    | some ps =>
      if !ps.isEmpty then
        some (ps.map ObjectIdentityParameter.to_string)
      else
        none
    | none => none
  let arg3 ← Host.render_list communities "[]"
  let arg4 ← Host.render_list parameters "None"
  let arg5 :=
    match self.config with
    | some config => Config.to_string config
    | none => "None"
  pure ("Host(id=" ++ int_to_string self.id
    ++ ", hostname='" ++ self.hostname
    ++ "', communities=" ++ arg3
    ++ ", parameters=" ++ arg4
    ++ ", config=" ++ arg5
    ++ ")")

/-- Lines 144-173: the local `type_string` after the `switch`. -/
def SnmpError.type_string (type : Int) : String :=
  if type = SESSION_ERROR then "SESSION_ERROR"
  else if type = CREATE_REQUEST_PDU_ERROR then "CREATE_REQUEST_PDU_ERROR"
  else if type = SEND_ERROR then "SEND_ERROR"
  else if type = BAD_RESPONSE_PDU_ERROR then "BAD_RESPONSE_PDU_ERROR"
  else if type = TIMEOUT_ERROR then "TIMEOUT_ERROR"
  else if type = ASYNC_PROBE_ERROR then "ASYNC_PROBE_ERROR"
  else if type = TRANSPORT_DISCONNECT_ERROR then "TRANSPORT_DISCONNECT_ERROR"
  else if type = CREATE_RESPONSE_PDU_ERROR then "CREATE_RESPONSE_PDU_ERROR"
  else if type = VALUE_WARNING then "VALUE_WARNING"
  else "UNKNOWN_ERROR"

/-- Lines 143-196. -/
def SnmpError.to_string (self : SnmpError) : Option String := do
  let host ← Host.to_string self.host
  pure ("SnmpError(type=" ++ SnmpError.type_string self.type
    ++ ", host=" ++ host
    ++ ", sys_errno=" ++ render_opt_int self.sys_errno
    ++ ", snmp_errno=" ++ render_opt_int self.snmp_errno
    ++ ", err_stat=" ++ render_opt_int self.err_stat
    ++ ", err_index=" ++ render_opt_int self.err_index
    ++ ", err_oid=" ++ render_opt_oid self.err_oid
    ++ ", message=" ++ render_opt_text self.message
    ++ ")")

/-- Occurrence of `sub` as a contiguous piece of `s`. -/
def occurs_in (sub s : String) : Prop := sub.data <:+: s.data

instance (sub s : String) : Decidable (occurs_in sub s) := by
  unfold occurs_in; infer_instance

/-- The rendering of a sequence as the spec words it (4.4, `[elem, elem, ...]` joined with
`, `): the concatenation of the elements with the separator put between every two neighbours,
in brackets. -/
def render_sequence_spec (elems : List String) : String :=
  "[" ++ String.join (List.intersperse ", " elems) ++ "]"

/-- The number a list of decimal digits stands for, most significant digit first. -/
def decimal_value (l : List Char) : Nat :=
  l.foldl (fun acc c => 10 * acc + (c.toNat - 48)) 0

/-! ## Shared lemmas -/

/-- The snapshot in closed form: every guarded `front()` succeeds. -/
theorem Host.snapshot_eq (h : Host) :
    Host.snapshot h = some
      { id := h.id
        hostname := h.hostname
        communities := h.communities.take 1
        parameters :=
          match h.parameters with
          | some (p :: _) => some [p]
          | _ => none
        config := h.config } := by
  obtain ⟨id, hostname, cs, ps, cfg⟩ := h
  rcases cs with _ | ⟨c, cs⟩ <;> rcases ps with _ | _ | ⟨p, ps⟩ <;> rfl

/-- The guarded rendering of a list field never reaches `front()` of an empty list. -/
theorem Host.render_list_guarded {α : Type} (f : α → String) (l : List α) (dflt : String) :
    ∃ r, Host.render_list (if (!l.isEmpty) = true then some (l.map f) else none) dflt
      = some r := by
  cases l with
  | nil => exact ⟨dflt, rfl⟩
  | cons a l => exact ⟨_, rfl⟩

/-- The rendering of a host whose parameters render as `arg4`, given the two list fields. -/
theorem Host.to_string_of_fields (h : Host) (arg3 arg4 : String)
    (h3 : Host.render_list
      (if (!h.communities.isEmpty) = true then some (h.communities.map Community.to_string)
        else none) "[]" = some arg3)
    (h4 : Host.render_list
      (match h.parameters with
        | some ps =>
          if (!ps.isEmpty) = true then some (ps.map ObjectIdentityParameter.to_string) else none
        | none => none) "None" = some arg4) :
    Host.to_string h = some ("Host(id=" ++ int_to_string h.id
      ++ ", hostname='" ++ h.hostname
      ++ "', communities=" ++ arg3
      ++ ", parameters=" ++ arg4
      ++ ", config=" ++ (match h.config with
          | some config => Config.to_string config
          | none => "None")
      ++ ")") := by
  simp only [Host.to_string, h3, h4]
  rfl

/-- Rendering a host always yields a string. -/
theorem Host.to_string_total (h : Host) : ∃ r, Host.to_string h = some r := by
  obtain ⟨arg3, h3⟩ := Host.render_list_guarded Community.to_string h.communities "[]"
  have h4 : ∃ arg4, Host.render_list
      (match h.parameters with
        | some ps =>
          if (!ps.isEmpty) = true then some (ps.map ObjectIdentityParameter.to_string) else none
        | none => none) "None" = some arg4 := by
    cases h.parameters with
    | none => exact ⟨_, rfl⟩
    | some ps => exact Host.render_list_guarded ObjectIdentityParameter.to_string ps "None"
  obtain ⟨arg4, h4⟩ := h4
  exact ⟨_, Host.to_string_of_fields h arg3 arg4 h3 h4⟩

/-- The rendering of an error whose host renders as `hs`. -/
theorem SnmpError.to_string_of_host (e : SnmpError) (hs : String)
    (h : Host.to_string e.host = some hs) :
    SnmpError.to_string e = some ("SnmpError(type=" ++ SnmpError.type_string e.type
      ++ ", host=" ++ hs
      ++ ", sys_errno=" ++ render_opt_int e.sys_errno
      ++ ", snmp_errno=" ++ render_opt_int e.snmp_errno
      ++ ", err_stat=" ++ render_opt_int e.err_stat
      ++ ", err_index=" ++ render_opt_int e.err_index
      ++ ", err_oid=" ++ render_opt_oid e.err_oid
      ++ ", message=" ++ render_opt_text e.message
      ++ ")") := by
  simp only [SnmpError.to_string, h]
  rfl

theorem render_opt_int_eq (x : Option Int) :
    render_opt_int x = (x.map int_to_string).getD "None" := by
  cases x <;> rfl

theorem render_opt_oid_eq (x : Option (List Nat)) :
    render_opt_oid x = (x.map (fun oid => "'" ++ oid_to_string oid ++ "'")).getD "None" := by
  cases x <;> rfl

theorem render_opt_text_eq (x : Option String) :
    render_opt_text x = (x.map (fun m => "'" ++ m ++ "'")).getD "None" := by
  cases x <;> rfl

theorem foldl_append_acc (l : List String) (acc : String) :
    l.foldl (fun r s => r ++ s) acc = acc ++ l.foldl (fun r s => r ++ s) "" := by
  induction l generalizing acc with
  | nil => simp
  | cons a l ih =>
    rw [List.foldl_cons, ih, List.foldl_cons, ih ("" ++ a), String.empty_append,
      String.append_assoc]

theorem join_cons (a : String) (l : List String) :
    String.join (a :: l) = a ++ String.join l := by
  unfold String.join
  rw [List.foldl_cons, foldl_append_acc, String.empty_append]

theorem join_intersperse_append (x y : String) (rest : List String) :
    String.join (List.intersperse ", " ((x ++ y) :: rest))
      = x ++ String.join (List.intersperse ", " (y :: rest)) := by
  cases rest with
  | nil => simp only [List.intersperse_single, join_cons, String.append_assoc]
  | cons c r => simp only [List.intersperse_cons₂, join_cons, String.append_assoc]

/-- The left fold of lines 122-124 over "first plus rest" is the separator join. -/
theorem accumulate_join_op (first : String) (rest : List String) :
    accumulate rest first join_op = String.join (List.intersperse ", " (first :: rest)) := by
  induction rest generalizing first with
  | nil => simp [accumulate, join_cons, String.join]
  | cons b rest ih =>
    have h : accumulate (b :: rest) first join_op
        = accumulate rest (first ++ ", " ++ b) join_op := rfl
    rw [h, ih, join_intersperse_append, List.intersperse_cons₂, join_cons, join_cons,
      String.append_assoc]

theorem Host.render_list_cons (a : String) (l : List String) (dflt : String) :
    Host.render_list (some (a :: l)) dflt = some (render_sequence_spec (a :: l)) := by
  have h : Host.render_list (some (a :: l)) dflt
      = some ("[" ++ accumulate l a join_op ++ "]") := rfl
  rw [h, accumulate_join_op, render_sequence_spec]

/-- The guarded rendering of the parameters field never reaches `front()` of an empty list. -/
theorem Host.render_parameters_guarded (ps : Option (List ObjectIdentityParameter)) :
    ∃ arg4, Host.render_list
      (match ps with
        | some ps =>
          if (!ps.isEmpty) = true then some (ps.map ObjectIdentityParameter.to_string) else none
        | none => none) "None" = some arg4 := by
  cases ps with
  | none => exact ⟨_, rfl⟩
  | some ps => exact Host.render_list_guarded ObjectIdentityParameter.to_string ps "None"

/-! ### Decimal numerals -/

theorem digitChar_spec :
    ∀ d, d < 10 → (Nat.digitChar d).isDigit = true ∧ (Nat.digitChar d).toNat - 48 = d := by
  decide

theorem toDigitsCore_acc (fuel n : Nat) (ds : List Char) :
    Nat.toDigitsCore 10 fuel n ds = Nat.toDigitsCore 10 fuel n [] ++ ds := by
  induction fuel generalizing n ds with
  | zero => simp [Nat.toDigitsCore]
  | succ fuel ih =>
    simp only [Nat.toDigitsCore]
    split
    · simp
    · rw [ih (n / 10) (Nat.digitChar (n % 10) :: ds), ih (n / 10) [Nat.digitChar (n % 10)]]
      simp

theorem toDigitsCore_isDigit (fuel n : Nat) :
    ∀ c ∈ Nat.toDigitsCore 10 fuel n [], c.isDigit = true := by
  induction fuel generalizing n with
  | zero => simp [Nat.toDigitsCore]
  | succ fuel ih =>
    have hd := (digitChar_spec (n % 10) (Nat.mod_lt n (by decide))).1
    simp only [Nat.toDigitsCore]
    split
    · simpa using hd
    · rw [toDigitsCore_acc]
      intro c hc
      rcases List.mem_append.1 hc with hc | hc
      · exact ih _ c hc
      · simp only [List.mem_singleton] at hc
        rw [hc]; exact hd

theorem decimal_value_append (l : List Char) (c : Char) :
    decimal_value (l ++ [c]) = 10 * decimal_value l + (c.toNat - 48) := by
  simp [decimal_value, List.foldl_append]

theorem decimal_value_toDigitsCore (fuel n : Nat) (h : n < fuel) :
    decimal_value (Nat.toDigitsCore 10 fuel n []) = n := by
  induction fuel generalizing n with
  | zero => omega
  | succ fuel ih =>
    have hd := (digitChar_spec (n % 10) (Nat.mod_lt n (by decide))).2
    simp only [Nat.toDigitsCore]
    split
    · rename_i h0
      simp only [decimal_value, List.foldl_cons, List.foldl_nil, hd]
      omega
    · rename_i h0
      rw [toDigitsCore_acc, decimal_value_append, ih (n / 10) (by omega), hd]
      omega

theorem repr_data_isDigit (n : Nat) : ∀ c ∈ (Nat.repr n).data, c.isDigit = true :=
  toDigitsCore_isDigit (n + 1) n

theorem decimal_value_repr (n : Nat) : decimal_value (Nat.repr n).data = n :=
  decimal_value_toDigitsCore (n + 1) n (Nat.lt_succ_self n)

theorem digits_sep_split (x : Char) (sep : List Char) (hx : x.isDigit = false)
    (d1 d2 s1 s2 : List Char)
    (h1 : ∀ c ∈ d1, c.isDigit = true) (h2 : ∀ c ∈ d2, c.isDigit = true)
    (h : d1 ++ ((x :: sep) ++ s1) = d2 ++ ((x :: sep) ++ s2)) :
    d1 = d2 ∧ s1 = s2 := by
  induction d1 generalizing d2 with
  | nil =>
    cases d2 with
    | nil => exact ⟨rfl, List.append_cancel_left h⟩
    | cons c d2 =>
      simp only [List.nil_append, List.cons_append, List.cons.injEq] at h
      have := h2 c (List.mem_cons_self _ _)
      rw [← h.1, hx] at this
      exact absurd this (by decide)
  | cons a d1 ih =>
    cases d2 with
    | nil =>
      simp only [List.nil_append, List.cons_append, List.cons.injEq] at h
      have := h1 a (List.mem_cons_self _ _)
      rw [h.1, hx] at this
      exact absurd this (by decide)
    | cons c d2 =>
      simp only [List.cons_append, List.cons.injEq] at h
      obtain ⟨hd, hs⟩ := ih d2 (fun c hc => h1 c (List.mem_cons_of_mem _ hc))
        (fun c hc => h2 c (List.mem_cons_of_mem _ hc)) (by simpa using h.2)
      exact ⟨by rw [h.1, hd], hs⟩

theorem repr_sep_split (x : Char) (sep : List Char) (hx : x.isDigit = false)
    (a b : Nat) (s1 s2 : List Char)
    (h : (Nat.repr a).data ++ ((x :: sep) ++ s1) = (Nat.repr b).data ++ ((x :: sep) ++ s2)) :
    a = b ∧ s1 = s2 := by
  obtain ⟨hd, hs⟩ := digits_sep_split x sep hx _ _ s1 s2 (repr_data_isDigit a)
    (repr_data_isDigit b) h
  refine ⟨?_, hs⟩
  rw [← decimal_value_repr a, ← decimal_value_repr b, hd]

/-! ## `Host::snapshot` -/

/-- C1: the snapshot of a host has no community when the host has none, and otherwise exactly
the first community of the host, however many the host has. -/
theorem Host.snapshot_communities :
    (∀ (id : Int) (hostname : String) (ps : Option (List ObjectIdentityParameter))
        (cfg : Option Config),
        ∃ s, Host.snapshot ⟨id, hostname, [], ps, cfg⟩ = some s ∧ s.communities = [])
    ∧ (∀ (id : Int) (hostname : String) (c : Community) (rest : List Community)
        (ps : Option (List ObjectIdentityParameter)) (cfg : Option Config),
        ∃ s, Host.snapshot ⟨id, hostname, c :: rest, ps, cfg⟩ = some s
          ∧ s.communities = [c]) := by
  constructor
  · intro id hostname ps cfg
    exact ⟨_, Host.snapshot_eq _, rfl⟩
  · intro id hostname c rest ps cfg
    exact ⟨_, Host.snapshot_eq _, rfl⟩

/-- C2: when the parameters option of a host holds a non-empty list `p0 :: rest`, the snapshot
holds exactly the one-element list `[p0]`. -/
theorem Host.snapshot_parameters_cons (id : Int) (hostname : String) (cs : List Community)
    (p0 : ObjectIdentityParameter) (rest : List ObjectIdentityParameter)
    (cfg : Option Config) :
    ∃ s, Host.snapshot ⟨id, hostname, cs, some (p0 :: rest), cfg⟩ = some s
      ∧ s.parameters = some [p0] :=
  ⟨_, Host.snapshot_eq _, rfl⟩

/-- C3: when the parameters option of a host is absent, or present with an empty list, the
parameters option of the snapshot is absent; no snapshot holds a present empty list. -/
theorem Host.snapshot_parameters_absent :
    (∀ (id : Int) (hostname : String) (cs : List Community) (cfg : Option Config),
        ∃ s, Host.snapshot ⟨id, hostname, cs, none, cfg⟩ = some s ∧ s.parameters = none)
    ∧ (∀ (id : Int) (hostname : String) (cs : List Community) (cfg : Option Config),
        ∃ s, Host.snapshot ⟨id, hostname, cs, some [], cfg⟩ = some s ∧ s.parameters = none)
    ∧ (∀ h : Host, ∃ s, Host.snapshot h = some s ∧ s.parameters ≠ some []) := by
  refine ⟨?_, ?_, ?_⟩
  · intro id hostname cs cfg
    exact ⟨_, Host.snapshot_eq _, rfl⟩
  · intro id hostname cs cfg
    exact ⟨_, Host.snapshot_eq _, rfl⟩
  · intro h
    refine ⟨_, Host.snapshot_eq h, ?_⟩
    obtain ⟨id, hostname, cs, ps, cfg⟩ := h
    rcases ps with _ | _ | ⟨p, ps⟩ <;> simp

/-- C4: the snapshot keeps `id`, `hostname` and `config` (absent or present) of the host. -/
theorem Host.snapshot_frame (h : Host) :
    ∃ s, Host.snapshot h = some s
      ∧ s.id = h.id ∧ s.hostname = h.hostname ∧ s.config = h.config :=
  ⟨_, Host.snapshot_eq h, rfl, rfl, rfl⟩

/-! ## `Host::to_string` -/

set_option maxRecDepth 100000

/-- C7, as the code has it: a host whose parameters option is absent and the same host with a
present but empty parameters list render to the same string, in which the parameters field is
`parameters=None`; the rendering does not tell the two apart. -/
theorem Host.to_string_parameters_absent_or_empty (id : Int) (hostname : String)
    (cs : List Community) (cfg : Option Config) :
    ∃ arg3 r,
      r = "Host(id=" ++ int_to_string id ++ ", hostname='" ++ hostname
          ++ "', communities=" ++ arg3 ++ ", parameters=None, config="
          ++ (match cfg with
              | some config => Config.to_string config
              | none => "None")
          ++ ")"
      ∧ Host.to_string ⟨id, hostname, cs, none, cfg⟩ = some r
      ∧ Host.to_string ⟨id, hostname, cs, some [], cfg⟩ = some r
      ∧ occurs_in "parameters=None" r := by
  obtain ⟨arg3, h3⟩ := Host.render_list_guarded Community.to_string cs "[]"
  have hlit : ∀ a b : String,
      a ++ ", parameters=" ++ "None" ++ ", config=" ++ b ++ ")"
        = a ++ ", parameters=None, config=" ++ b ++ ")" := by
    intro a b
    apply String.ext
    simp only [String.data_append, List.append_assoc]
    rfl
  refine ⟨arg3, _, rfl, ?_, ?_, ?_⟩
  · rw [Host.to_string_of_fields ⟨id, hostname, cs, none, cfg⟩ arg3 "None" h3 rfl, hlit]
  · rw [Host.to_string_of_fields ⟨id, hostname, cs, some [], cfg⟩ arg3 "None" h3 rfl, hlit]
  · refine ⟨("Host(id=" ++ int_to_string id ++ ", hostname='" ++ hostname
        ++ "', communities=" ++ arg3 ++ ", ").data,
      (", config="
        ++ (match cfg with
            | some config => Config.to_string config
            | none => "None")
        ++ ")").data, ?_⟩
    simp only [String.data_append, List.append_assoc]
    rfl

/-- C7, as the spec has it, fails: the host `Host(1, "h", [], Some([]), None)` renders to
`Host(id=1, hostname='h', communities=[], parameters=None, config=None)`, in which
`parameters=None` occurs and `parameters=[]` does not. -/
theorem Host.to_string_empty_parameters_counterexample :
    Host.to_string ⟨1, "h", [], some [], none⟩
        = some "Host(id=1, hostname='h', communities=[], parameters=None, config=None)"
      ∧ occurs_in "parameters=None"
          "Host(id=1, hostname='h', communities=[], parameters=None, config=None)"
      ∧ ¬ occurs_in "parameters=[]"
          "Host(id=1, hostname='h', communities=[], parameters=None, config=None)" := by
  refine ⟨by rfl, by decide, by decide⟩

/-- C8: a host with no community, no parameters option and no config renders to
`Host(id=<id>, hostname='<hostname>', communities=[], parameters=None, config=None)` with the
id in decimal; for id 42 and host name `router1` that is
`Host(id=42, hostname='router1', communities=[], parameters=None, config=None)`. -/
theorem Host.to_string_bare :
    (∀ (id : Int) (hostname : String),
      Host.to_string ⟨id, hostname, [], none, none⟩
        = some ("Host(id=" ++ int_to_string id ++ ", hostname='" ++ hostname
            ++ "', communities=[], parameters=None, config=None)"))
    ∧ Host.to_string ⟨42, "router1", [], none, none⟩
        = some "Host(id=42, hostname='router1', communities=[], parameters=None, config=None)"
    ∧ Host.to_string ⟨-7, "", [], none, none⟩
        = some "Host(id=-7, hostname='', communities=[], parameters=None, config=None)" := by
  refine ⟨?_, by rfl, by rfl⟩
  intro id hostname
  rw [Host.to_string_of_fields ⟨id, hostname, [], none, none⟩ "[]" "None" rfl rfl]
  simp only [String.append_assoc]
  rfl

/-! ## `SnmpError::to_string` -/

/-- C10: the `type=` field of the rendering of an error is the local `type_string`, which is
the kind's own name for each of the nine kinds and `UNKNOWN_ERROR` for every other tag value;
the rendering yields a string whatever the tag. -/
theorem SnmpError.to_string_type :
    (SnmpError.type_string SESSION_ERROR = "SESSION_ERROR"
      ∧ SnmpError.type_string CREATE_REQUEST_PDU_ERROR = "CREATE_REQUEST_PDU_ERROR"
      ∧ SnmpError.type_string SEND_ERROR = "SEND_ERROR"
      ∧ SnmpError.type_string BAD_RESPONSE_PDU_ERROR = "BAD_RESPONSE_PDU_ERROR"
      ∧ SnmpError.type_string TIMEOUT_ERROR = "TIMEOUT_ERROR"
      ∧ SnmpError.type_string ASYNC_PROBE_ERROR = "ASYNC_PROBE_ERROR"
      ∧ SnmpError.type_string TRANSPORT_DISCONNECT_ERROR = "TRANSPORT_DISCONNECT_ERROR"
      ∧ SnmpError.type_string CREATE_RESPONSE_PDU_ERROR = "CREATE_RESPONSE_PDU_ERROR"
      ∧ SnmpError.type_string VALUE_WARNING = "VALUE_WARNING")
    ∧ (∀ t : Int,
        t ≠ SESSION_ERROR → t ≠ CREATE_REQUEST_PDU_ERROR → t ≠ SEND_ERROR
        → t ≠ BAD_RESPONSE_PDU_ERROR → t ≠ TIMEOUT_ERROR → t ≠ ASYNC_PROBE_ERROR
        → t ≠ TRANSPORT_DISCONNECT_ERROR → t ≠ CREATE_RESPONSE_PDU_ERROR → t ≠ VALUE_WARNING
        → SnmpError.type_string t = "UNKNOWN_ERROR")
    ∧ (∀ e : SnmpError, ∃ rest,
        SnmpError.to_string e
          = some ("SnmpError(type=" ++ SnmpError.type_string e.type ++ ", host=" ++ rest)) := by
  refine ⟨by decide, ?_, ?_⟩
  · intro t h0 h1 h2 h3 h4 h5 h6 h7 h8
    simp only [SnmpError.type_string, if_neg h0, if_neg h1, if_neg h2, if_neg h3, if_neg h4,
      if_neg h5, if_neg h6, if_neg h7, if_neg h8]
  · intro e
    obtain ⟨hs, hhs⟩ := Host.to_string_total e.host
    refine ⟨hs
        ++ ", sys_errno=" ++ render_opt_int e.sys_errno
        ++ ", snmp_errno=" ++ render_opt_int e.snmp_errno
        ++ ", err_stat=" ++ render_opt_int e.err_stat
        ++ ", err_index=" ++ render_opt_int e.err_index
        ++ ", err_oid=" ++ render_opt_oid e.err_oid
        ++ ", message=" ++ render_opt_text e.message
        ++ ")", ?_⟩
    rw [SnmpError.to_string_of_host e hs hhs]
    simp only [String.append_assoc]

/-- C10 at the tag 9, which is none of the nine kinds: its name is `UNKNOWN_ERROR`, and an
error with that tag renders. -/
theorem SnmpError.to_string_type_witness :
    SnmpError.type_string 9 = "UNKNOWN_ERROR"
    ∧ ∃ rest, SnmpError.to_string ⟨9, ⟨1, "h", [], none, none⟩, none, none, none, none, none, none⟩
        = some ("SnmpError(type=" ++ SnmpError.type_string 9 ++ ", host=" ++ rest) :=
  ⟨SnmpError.to_string_type.2.1 9 (by decide) (by decide) (by decide) (by decide) (by decide)
      (by decide) (by decide) (by decide) (by decide),
    SnmpError.to_string_type.2.2 ⟨9, ⟨1, "h", [], none, none⟩, none, none, none, none, none, none⟩⟩

/-- C11: in the rendering of an error each payload field has its own place and is rendered
from that field alone: the four integer fields in decimal, `err_oid` through `oid_to_string`
in single quotes, `message` in single quotes, and `None` for a field that is absent, whatever
the other fields and the type are. -/
theorem SnmpError.to_string_payload :
    (∀ e : SnmpError, ∃ hs,
      Host.to_string e.host = some hs
      ∧ SnmpError.to_string e
          = some ("SnmpError(type=" ++ SnmpError.type_string e.type
              ++ ", host=" ++ hs
              ++ ", sys_errno=" ++ (e.sys_errno.map int_to_string).getD "None"
              ++ ", snmp_errno=" ++ (e.snmp_errno.map int_to_string).getD "None"
              ++ ", err_stat=" ++ (e.err_stat.map int_to_string).getD "None"
              ++ ", err_index=" ++ (e.err_index.map int_to_string).getD "None"
              ++ ", err_oid="
              ++ (e.err_oid.map (fun oid => "'" ++ oid_to_string oid ++ "'")).getD "None"
              ++ ", message=" ++ (e.message.map (fun m => "'" ++ m ++ "'")).getD "None"
              ++ ")"))
    ∧ SnmpError.to_string
        ⟨SEND_ERROR, ⟨1, "h", [], none, none⟩,
          some 11, none, some (-2), some 0, some [1, 3, 6], some "boom"⟩
        = some ("SnmpError(type=SEND_ERROR, host=Host(id=1, hostname='h', communities=[], "
            ++ "parameters=None, config=None), sys_errno=11, snmp_errno=None, err_stat=-2, "
            ++ "err_index=0, err_oid='1.3.6', message='boom')")
    ∧ SnmpError.to_string
        ⟨VALUE_WARNING, ⟨1, "h", [], none, none⟩,
          none, some 5, none, none, none, none⟩
        = some ("SnmpError(type=VALUE_WARNING, host=Host(id=1, hostname='h', communities=[], "
            ++ "parameters=None, config=None), sys_errno=None, snmp_errno=5, err_stat=None, "
            ++ "err_index=None, err_oid=None, message=None)") := by
  refine ⟨?_, by rfl, by rfl⟩
  intro e
  obtain ⟨hs, hhs⟩ := Host.to_string_total e.host
  refine ⟨hs, hhs, ?_⟩
  rw [SnmpError.to_string_of_host e hs hhs]
  simp only [render_opt_int_eq, render_opt_oid_eq, render_opt_text_eq]

/-! ## The value types -/

/-- C12: a config renders to
`Config(retries=<r>, timeout=<t>, var_binds_per_pdu=<v>, bulk_repetitions=<b>)`, the numbers in
decimal (digits only, standing for the number); for 3, 1000, 10, 5 that is
`Config(retries=3, timeout=1000, var_binds_per_pdu=10, bulk_repetitions=5)`. -/
theorem Config.to_string_format :
    (∀ r t v b : Nat,
      Config.to_string ⟨r, t, v, b⟩
        = "Config(retries=" ++ Nat.repr r ++ ", timeout=" ++ Nat.repr t
            ++ ", var_binds_per_pdu=" ++ Nat.repr v ++ ", bulk_repetitions=" ++ Nat.repr b
            ++ ")")
    ∧ (∀ n : Nat,
        (∀ c ∈ (Nat.repr n).data, c.isDigit = true) ∧ decimal_value (Nat.repr n).data = n)
    ∧ Config.to_string ⟨3, 1000, 10, 5⟩
        = "Config(retries=3, timeout=1000, var_binds_per_pdu=10, bulk_repetitions=5)" := by
  refine ⟨fun r t v b => rfl, fun n => ⟨repr_data_isDigit n, decimal_value_repr n⟩, by rfl⟩

/-- C13: an object identity parameter renders to `ObjectIdentityParameter(start=<s>, end=<e>)`,
each bound on its own: `None` without quotes when absent, the OID rendering in single quotes
when present; with no start and end 1.3.6.1 that is
`ObjectIdentityParameter(start=None, end='1.3.6.1')`. -/
theorem ObjectIdentityParameter.to_string_bounds :
    (∀ start end_ : Option (List Nat),
      ObjectIdentityParameter.to_string ⟨start, end_⟩
        = "ObjectIdentityParameter(start="
            ++ (start.map (fun oid => "'" ++ oid_to_string oid ++ "'")).getD "None"
            ++ ", end="
            ++ (end_.map (fun oid => "'" ++ oid_to_string oid ++ "'")).getD "None"
            ++ ")")
    ∧ ObjectIdentityParameter.to_string ⟨none, some [1, 3, 6, 1]⟩
        = "ObjectIdentityParameter(start=None, end='1.3.6.1')"
    ∧ ObjectIdentityParameter.to_string ⟨some [1, 3, 6, 1, 2, 1], none⟩
        = "ObjectIdentityParameter(start='1.3.6.1.2.1', end=None)"
    ∧ ObjectIdentityParameter.to_string ⟨none, none⟩
        = "ObjectIdentityParameter(start=None, end=None)" := by
  refine ⟨?_, by rfl, by rfl, by rfl⟩
  intro start end_
  simp only [ObjectIdentityParameter.to_string, render_opt_oid_eq]

/-- C14: a community renders to `Community(version=<v>, string='<s>')`, where `<v>` is `v2c`
for the version `V2C` and `UNKNOWN_VERSION` for every other tag; for `V2C` and `public` that is
`Community(version=v2c, string='public')`. -/
theorem Community.to_string_version :
    (∀ s : String,
      Community.to_string ⟨V2C, s⟩ = "Community(version=v2c, string='" ++ s ++ "')")
    ∧ (∀ (v : Int) (s : String), v ≠ V2C →
      Community.to_string ⟨v, s⟩ = "Community(version=UNKNOWN_VERSION, string='" ++ s ++ "')")
    ∧ Community.to_string ⟨V2C, "public"⟩ = "Community(version=v2c, string='public')" := by
  refine ⟨?_, ?_, by rfl⟩
  · intro s
    apply String.ext
    simp only [Community.to_string, String.data_append, List.append_assoc]
    rfl
  · intro v s hv
    apply String.ext
    simp only [Community.to_string, Community.version_string, if_neg hv, String.data_append,
      List.append_assoc]
    rfl

/-- C14 at the tag 7, which is not `V2C`. -/
theorem Community.to_string_version_witness :
    (7 : Int) ≠ V2C
    ∧ Community.to_string ⟨7, "public"⟩
        = "Community(version=UNKNOWN_VERSION, string='" ++ "public" ++ "')" :=
  ⟨by decide, Community.to_string_version.2.1 7 "public" (by decide)⟩

/-! ## The sequence fields of `Host::to_string`, totality, fixed points of the snapshot -/

/-- C15: the left fold over "first element plus rest" computes the separator join: for a host
with a non-empty community list the communities field is `[` + the renderings of the
communities, in order, with `, ` between neighbours + `]`, and likewise the parameters field
for a present non-empty parameter list; a list of one element gives `[` + element + `]`. -/
theorem Host.to_string_sequences :
    (∀ (first : String) (rest : List String),
      accumulate rest first join_op = String.join (List.intersperse ", " (first :: rest)))
    ∧ (∀ (id : Int) (hostname : String) (c : Community) (cs : List Community)
        (ps : Option (List ObjectIdentityParameter)) (cfg : Option Config),
        ∃ arg4, Host.to_string ⟨id, hostname, c :: cs, ps, cfg⟩
          = some ("Host(id=" ++ int_to_string id
              ++ ", hostname='" ++ hostname
              ++ "', communities="
              ++ render_sequence_spec ((c :: cs).map Community.to_string)
              ++ ", parameters=" ++ arg4
              ++ ", config=" ++ (match cfg with
                  | some config => Config.to_string config
                  | none => "None")
              ++ ")"))
    ∧ (∀ (id : Int) (hostname : String) (cs : List Community) (p : ObjectIdentityParameter)
        (ps : List ObjectIdentityParameter) (cfg : Option Config),
        ∃ arg3, Host.to_string ⟨id, hostname, cs, some (p :: ps), cfg⟩
          = some ("Host(id=" ++ int_to_string id
              ++ ", hostname='" ++ hostname
              ++ "', communities=" ++ arg3
              ++ ", parameters="
              ++ render_sequence_spec ((p :: ps).map ObjectIdentityParameter.to_string)
              ++ ", config=" ++ (match cfg with
                  | some config => Config.to_string config
                  | none => "None")
              ++ ")"))
    ∧ (∀ elem : String, Host.render_list (some [elem]) "[]" = some ("[" ++ elem ++ "]"))
    ∧ Host.to_string
        ⟨1, "h", [⟨V2C, "a"⟩, ⟨V2C, "b"⟩, ⟨V2C, "c"⟩], some [⟨none, none⟩], none⟩
        = some ("Host(id=1, hostname='h', communities=[Community(version=v2c, string='a'), "
            ++ "Community(version=v2c, string='b'), Community(version=v2c, string='c')], "
            ++ "parameters=[ObjectIdentityParameter(start=None, end=None)], config=None)") := by
  refine ⟨accumulate_join_op, ?_, ?_, fun elem => rfl, by rfl⟩
  · intro id hostname c cs ps cfg
    obtain ⟨arg4, h4⟩ := Host.render_parameters_guarded ps
    exact ⟨arg4, Host.to_string_of_fields ⟨id, hostname, c :: cs, ps, cfg⟩ _ arg4
      (Host.render_list_cons _ _ _) h4⟩
  · intro id hostname cs p ps cfg
    obtain ⟨arg3, h3⟩ := Host.render_list_guarded Community.to_string cs "[]"
    exact ⟨arg3, Host.to_string_of_fields ⟨id, hostname, cs, some (p :: ps), cfg⟩ arg3 _
      h3 (Host.render_list_cons _ _ _)⟩

/-- C16: `Host::snapshot` and `Host::to_string` return a value on every host: the guards keep
`front()` and `next(begin())` off an empty list, also for a host with no community and for one
with a present but empty parameter list. Without its guard the fold is undefined on an empty
list. -/
theorem Host.snapshot_to_string_total :
    (∀ h : Host, (∃ s, Host.snapshot h = some s) ∧ (∃ r, Host.to_string h = some r))
    ∧ Host.snapshot ⟨1, "h", [], some [], none⟩ = some ⟨1, "h", [], none, none⟩
    ∧ Host.to_string ⟨1, "h", [], some [], none⟩
        = some "Host(id=1, hostname='h', communities=[], parameters=None, config=None)"
    ∧ (∀ dflt : String, Host.render_list (some []) dflt = none)
    ∧ front ([] : List Community) = none
    ∧ next_begin ([] : List String) = none := by
  refine ⟨fun h => ⟨⟨_, Host.snapshot_eq h⟩, Host.to_string_total h⟩, by rfl, by rfl,
    fun dflt => rfl, rfl, rfl⟩

/-- C17: the hosts that `Host::snapshot` returns unchanged are exactly those with at most one
community and with parameters absent or a list of exactly one element; and the snapshot of a
snapshot is that snapshot. -/
theorem Host.snapshot_fixed_points :
    (∀ h : Host, Host.snapshot h = some h
      ↔ (h.communities.length ≤ 1
          ∧ (h.parameters = none ∨ ∃ p, h.parameters = some [p])))
    ∧ (∀ h : Host, (Host.snapshot h).bind Host.snapshot = Host.snapshot h) := by
  constructor
  · intro h
    obtain ⟨id, hostname, cs, ps, cfg⟩ := h
    rw [Host.snapshot_eq]
    rcases cs with _ | ⟨c, _ | ⟨c2, cs⟩⟩ <;> rcases ps with _ | _ | ⟨p, _ | ⟨p2, ps⟩⟩ <;> simp
  · intro h
    rw [Host.snapshot_eq h, Option.some_bind, Host.snapshot_eq]
    obtain ⟨id, hostname, cs, ps, cfg⟩ := h
    rcases cs with _ | ⟨c, cs⟩ <;> rcases ps with _ | _ | ⟨p, ps⟩ <;> rfl

/-- C18: two configs with the same rendering agree on `retries`, `timeout`,
`var_binds_per_pdu` and `bulk_repetitions`: every number is followed by a delimiter that
starts with a character that is no digit, so the rendering splits in one way only. -/
theorem Config.to_string_injective (c1 c2 : Config)
    (h : Config.to_string c1 = Config.to_string c2) :
    c1.retries = c2.retries ∧ c1.timeout = c2.timeout
      ∧ c1.var_binds_per_pdu = c2.var_binds_per_pdu
      ∧ c1.bulk_repetitions = c2.bulk_repetitions := by
  have hd := congrArg String.data h
  simp only [Config.to_string, String.data_append, List.append_assoc] at hd
  have h0 := List.append_cancel_left hd
  obtain ⟨hr, h1⟩ := repr_sep_split ',' " timeout=".data (by decide) _ _ _ _ h0
  obtain ⟨ht, h2⟩ := repr_sep_split ',' " var_binds_per_pdu=".data (by decide) _ _ _ _ h1
  obtain ⟨hv, h3⟩ := repr_sep_split ',' " bulk_repetitions=".data (by decide) _ _ _ _ h2
  obtain ⟨hb, _⟩ := repr_sep_split ')' [] (by decide) _ _ [] [] (by simpa using h3)
  exact ⟨hr, ht, hv, hb⟩

/-- C18 at the config 3, 1000, 10, 5 taken twice, whose rendering is
`Config(retries=3, timeout=1000, var_binds_per_pdu=10, bulk_repetitions=5)`. -/
theorem Config.to_string_injective_witness :
    Config.to_string ⟨3, 1000, 10, 5⟩
        = "Config(retries=3, timeout=1000, var_binds_per_pdu=10, bulk_repetitions=5)"
    ∧ (⟨3, 1000, 10, 5⟩ : Config).retries = (⟨3, 1000, 10, 5⟩ : Config).retries
    ∧ (⟨3, 1000, 10, 5⟩ : Config).timeout = (⟨3, 1000, 10, 5⟩ : Config).timeout
    ∧ (⟨3, 1000, 10, 5⟩ : Config).var_binds_per_pdu
        = (⟨3, 1000, 10, 5⟩ : Config).var_binds_per_pdu
    ∧ (⟨3, 1000, 10, 5⟩ : Config).bulk_repetitions
        = (⟨3, 1000, 10, 5⟩ : Config).bulk_repetitions :=
  ⟨by rfl, Config.to_string_injective ⟨3, 1000, 10, 5⟩ ⟨3, 1000, 10, 5⟩ rfl⟩

end SnmpFetch
